import Mathlib

/-!
Shallow embedding of the ustun STUN Binding responder (src/stunServer.cpp),
together with theorems checking the specification's claims about it.

Modelling conventions:
* bytes are Nat values (wire bytes are always < 256 where produced);
* multi-byte integer fields written with htons/htonl become explicit
  big-endian byte lists;
* the one place the source copies a native integer into a byte buffer
  without a byte-order conversion (memcpy of MAGIC_COOKIE into the IPv6
  XOR mask) is endianness-dependent, so the embedding takes the host's
  byte order as an explicit Bool parameter (le = host is little-endian);
* the randomized delay draw is passed as an explicit parameter.
-/

/-- Constant MAGIC_COOKIE from stunServer.cpp. -/
def MAGIC_COOKIE : Nat := 0x2112A442

/-- Constant BINDING_REQUEST from stunServer.cpp. -/
def BINDING_REQUEST : Nat := 0x0001

/-- Constant BINDING_SUCCESS_RESP from stunServer.cpp. -/
def BINDING_SUCCESS_RESP : Nat := 0x0101

/-- Constant XOR_MAPPED_ADDRESS from stunServer.cpp. -/
def XOR_MAPPED_ADDRESS : Nat := 0x0020

/-- Big-endian bytes of a 16-bit field as written by htons (values are
taken modulo 2^16, matching the uint16_t truncation). -/
def u16be (x : Nat) : List Nat := [x / 256 % 256, x % 256]

/-- Big-endian bytes of a 32-bit field as written by htonl. -/
def u32be (x : Nat) : List Nat :=
  [x / 16777216 % 256, x / 65536 % 256, x / 256 % 256, x % 256]

/-- Big-endian decoding of two bytes (what ntohs yields for wire bytes). -/
def decode16 (b0 b1 : Nat) : Nat := 256 * b0 + b1

/-- Big-endian decoding of four bytes (what ntohl yields for wire bytes). -/
def decode32 (b0 b1 b2 b3 : Nat) : Nat :=
  16777216 * b0 + 65536 * b1 + 256 * b2 + b3

/-- The source address of a datagram, as classified by the branch structure
of buildXorMappedAttr: addr.is_v4() (a 32-bit value, to_uint), else
addr.is_v6() (16 bytes, to_bytes), else the fall-through case in which
neither predicate reports true. -/
inductive IpAddress where
  | v4 (addr : Nat)
  | v6 (bytes : List Nat)
  | unsupported

/-- A UDP endpoint: address plus 16-bit port. -/
structure Endpoint where
  addr : IpAddress
  port : Nat

/-- The four bytes of the uint32_t MAGIC_COOKIE constant as laid out in host
memory: memcpy of the constant copies them in host byte order,
least significant byte first on a little-endian host. -/
def cookieHostBytes (le : Bool) : List Nat :=
  if le then [0x42, 0xA4, 0x12, 0x21] else [0x21, 0x12, 0xA4, 0x42]

/-- StunServer::buildXorMappedAttr: the attribute bytes appended to out for
the given source endpoint and 12-byte transaction id. port_xor is the
uint16_t src.port() XOR (MAGIC_COOKIE higher 16 bits); the IPv4 branch XORs the
numeric address with the cookie and serializes the packed struct
(all integer fields via htons/htonl); the IPv6 branch XORs the 16 address
bytes with the mask memcpy-ed from the cookie (host byte order!) followed
by the transaction id; any other family appends nothing. -/
def buildXorMappedAttr (src : Endpoint) (trans_id : List Nat) (le : Bool) : List Nat :=
  let port_xor := (Nat.xor src.port (MAGIC_COOKIE >>> 16)) % 65536
  match src.addr with
  | IpAddress.v4 a =>
      let ip := Nat.xor a MAGIC_COOKIE
      u16be XOR_MAPPED_ADDRESS ++ u16be 8 ++ [0x00, 0x01] ++ u16be port_xor ++ u32be ip
  | IpAddress.v6 bytes =>
      let xor_mask := cookieHostBytes le ++ trans_id
      let xaddr := List.zipWith Nat.xor bytes xor_mask
      u16be XOR_MAPPED_ADDRESS ++ u16be 20 ++ [0x00, 0x02] ++ u16be port_xor ++ xaddr
  | IpAddress.unsupported => []

/-- ntohs(hdr type): big-endian decode of buffer bytes 0 and 1. -/
def msgTypeOf (buf : List Nat) : Nat := decode16 (buf.getD 0 0) (buf.getD 1 0)

/-- ntohl(hdr cookie): big-endian decode of buffer bytes 4 to 7. -/
def cookieOf (buf : List Nat) : Nat :=
  decode32 (buf.getD 4 0) (buf.getD 5 0) (buf.getD 6 0) (buf.getD 7 0)

/-- hdr trans_id: the 12 buffer bytes at offsets 8 to 19. -/
def transIdOf (buf : List Nat) : List Nat :=
  [buf.getD 8 0, buf.getD 9 0, buf.getD 10 0, buf.getD 11 0,
   buf.getD 12 0, buf.getD 13 0, buf.getD 14 0, buf.getD 15 0,
   buf.getD 16 0, buf.getD 17 0, buf.getD 18 0, buf.getD 19 0]

/-- StunServer::handlePacket, projected to the response payload it schedules
for sending: none when the datagram is dropped (too short, wrong type or
wrong cookie), otherwise the 20-byte response header followed by the
attribute bytes. The header length field is htons(attrs.size()). -/
def handlePacket (buf : List Nat) (remote : Endpoint) (le : Bool) : Option (List Nat) :=
  if buf.length < 20 then none
  else if msgTypeOf buf ≠ BINDING_REQUEST ∨ cookieOf buf ≠ MAGIC_COOKIE then none
  else
    let attrs := buildXorMappedAttr remote (transIdOf buf) le
    some (u16be BINDING_SUCCESS_RESP ++ u16be attrs.length ++ u32be MAGIC_COOKIE ++
      transIdOf buf ++ attrs)

/-- delay_ms = _delay_ms + dist(gen) in handlePacket: the uint32_t base plus
the drawn int32_t offset. The usual arithmetic conversions turn this into
uint32_t addition modulo 2^32, so a negative draw larger than the base wraps
around instead of clamping. draw is the value produced by the uniform
int32_t distribution over [-max_delay_offset_ms, max_delay_offset_ms]. -/
def scheduledDelay (delay_ms : Nat) (draw : Int) : Nat :=
  (((delay_ms : Int) + draw) % (2 ^ 32 : Int)).toNat

/-- Observable actions of the receive-completion handler installed by
StunServer::startReceive. -/
inductive ServerAction where
  | send (payload : List Nat) (dest : Endpoint)
  | rearm

/-- The lambda passed to async_receive_from in StunServer::startReceive:
when the receive reported no error the packet is handled (possibly
scheduling a send), and in every case startReceive is called again
(the rearm action). ec is the error code's truth value. -/
def receiveHandler (ec : Bool) (buf : List Nat) (remote : Endpoint) (le : Bool) :
    List ServerAction :=
  (if ec then []
   else
     match handlePacket buf remote le with
     | some payload => [ServerAction.send payload remote]
     | none => []) ++ [ServerAction.rearm]

/-- A concrete valid 20-byte Binding Request: type 0x0001, length 0, magic
cookie, transaction id bytes 0x00 to 0x0B. -/
def validBuf20 : List Nat :=
  [0x00, 0x01, 0x00, 0x00, 0x21, 0x12, 0xA4, 0x42,
   0x00, 0x01, 0x02, 0x03, 0x04, 0x05, 0x06, 0x07, 0x08, 0x09, 0x0A, 0x0B]

/-- A second valid Binding Request agreeing with validBuf20 on the type,
cookie and transaction-id bytes but with a different length field
(bytes 2 and 3) and two extra trailing bytes. -/
def altBuf : List Nat :=
  [0x00, 0x01, 0xFF, 0xFF, 0x21, 0x12, 0xA4, 0x42,
   0x00, 0x01, 0x02, 0x03, 0x04, 0x05, 0x06, 0x07, 0x08, 0x09, 0x0A, 0x0B,
   0xDE, 0xAD]

theorem xor_lt_two_pow {x y n : Nat} (hx : x < 2 ^ n) (hy : y < 2 ^ n) :
    Nat.xor x y < 2 ^ n :=
  Nat.bitwise_lt hx hy

theorem decode16_u16be (x : Nat) : decode16 (x / 256 % 256) (x % 256) = x % 65536 := by
  unfold decode16
  omega

theorem decode32_u32be (x : Nat) :
    decode32 (x / 16777216 % 256) (x / 65536 % 256) (x / 256 % 256) (x % 256) =
      x % 4294967296 := by
  unfold decode32
  omega

theorem handlePacket_valid (buf : List Nat) (remote : Endpoint) (le : Bool)
    (hlen : 20 ≤ buf.length) (htype : msgTypeOf buf = BINDING_REQUEST)
    (hcookie : cookieOf buf = MAGIC_COOKIE) :
    handlePacket buf remote le =
      some (u16be BINDING_SUCCESS_RESP ++
        u16be (buildXorMappedAttr remote (transIdOf buf) le).length ++
        u32be MAGIC_COOKIE ++ transIdOf buf ++
        buildXorMappedAttr remote (transIdOf buf) le) := by
  unfold handlePacket
  rw [if_neg (by omega), if_neg (by simp [htype, hcookie])]

theorem xor_lt_65536 {x y : Nat} (hx : x < 65536) (hy : y < 65536) : Nat.xor x y < 65536 := by
  have h : (65536 : Nat) = 2 ^ 16 := by norm_num
  rw [h] at hx hy ⊢
  exact Nat.bitwise_lt hx hy

theorem xor_lt_4294967296 {x y : Nat} (hx : x < 4294967296) (hy : y < 4294967296) :
    Nat.xor x y < 4294967296 := by
  have h : (4294967296 : Nat) = 2 ^ 32 := by norm_num
  rw [h] at hx hy ⊢
  exact Nat.bitwise_lt hx hy

theorem transIdOf_length (buf : List Nat) : (transIdOf buf).length = 12 := rfl

theorem buildXorMappedAttr_length_le (src : Endpoint) (tid : List Nat) (le : Bool)
    (h : tid.length = 12) : (buildXorMappedAttr src tid le).length ≤ 24 := by
  rcases src with ⟨addr, port⟩
  cases addr with
  | v4 a => simp [buildXorMappedAttr, u16be, u32be]
  | v6 b =>
      cases le <;> simp [buildXorMappedAttr, u16be, cookieHostBytes, h]
  | unsupported => simp [buildXorMappedAttr]

/-- Claim C4: for every IPv4 peer, the attribute's xport field (bytes 6 and 7,
big-endian) XORed with the upper 16 bits of the magic cookie recovers the
port, and its xaddress field (bytes 8 to 11, big-endian) XORed with the magic
cookie recovers the address: the encoder satisfies the round-trip law. -/
theorem c4_ipv4_xor_roundtrip (a port : Nat) (tid : List Nat) (le : Bool)
    (ha : a < 4294967296) (hp : port < 65536) :
    Nat.xor (decode16 ((buildXorMappedAttr ⟨IpAddress.v4 a, port⟩ tid le).getD 6 0)
        ((buildXorMappedAttr ⟨IpAddress.v4 a, port⟩ tid le).getD 7 0))
      (MAGIC_COOKIE >>> 16) = port ∧
    Nat.xor (decode32 ((buildXorMappedAttr ⟨IpAddress.v4 a, port⟩ tid le).getD 8 0)
        ((buildXorMappedAttr ⟨IpAddress.v4 a, port⟩ tid le).getD 9 0)
        ((buildXorMappedAttr ⟨IpAddress.v4 a, port⟩ tid le).getD 10 0)
        ((buildXorMappedAttr ⟨IpAddress.v4 a, port⟩ tid le).getD 11 0))
      MAGIC_COOKIE = a := by
  have hb : buildXorMappedAttr ⟨IpAddress.v4 a, port⟩ tid le =
      [0, 32, 0, 8, 0, 1,
       (Nat.xor port (MAGIC_COOKIE >>> 16)) % 65536 / 256 % 256,
       (Nat.xor port (MAGIC_COOKIE >>> 16)) % 65536 % 256,
       Nat.xor a MAGIC_COOKIE / 16777216 % 256,
       Nat.xor a MAGIC_COOKIE / 65536 % 256,
       Nat.xor a MAGIC_COOKIE / 256 % 256,
       Nat.xor a MAGIC_COOKIE % 256] := by
    simp [buildXorMappedAttr, u16be, u32be, XOR_MAPPED_ADDRESS]
  have hpx : Nat.xor port (MAGIC_COOKIE >>> 16) < 65536 :=
    xor_lt_65536 hp (by decide)
  have hip : Nat.xor a MAGIC_COOKIE < 4294967296 :=
    xor_lt_4294967296 ha (by decide)
  rw [hb]
  constructor
  · show Nat.xor (decode16 ((Nat.xor port (MAGIC_COOKIE >>> 16)) % 65536 / 256 % 256)
        ((Nat.xor port (MAGIC_COOKIE >>> 16)) % 65536 % 256)) (MAGIC_COOKIE >>> 16) = port
    rw [decode16_u16be, Nat.mod_eq_of_lt (Nat.mod_lt _ (by norm_num)),
      Nat.mod_eq_of_lt hpx]
    exact Nat.xor_cancel_right (MAGIC_COOKIE >>> 16) port
  · show Nat.xor (decode32 (Nat.xor a MAGIC_COOKIE / 16777216 % 256)
        (Nat.xor a MAGIC_COOKIE / 65536 % 256) (Nat.xor a MAGIC_COOKIE / 256 % 256)
        (Nat.xor a MAGIC_COOKIE % 256)) MAGIC_COOKIE = a
    rw [decode32_u32be, Nat.mod_eq_of_lt hip]
    exact Nat.xor_cancel_right MAGIC_COOKIE a

/-- Witness for c4_ipv4_xor_roundtrip at the concrete peer 203.0.113.5:54321. -/
theorem c4_ipv4_xor_roundtrip_witness :
    (0xCB007105 : Nat) < 4294967296 ∧ (54321 : Nat) < 65536 ∧
    (Nat.xor (decode16 ((buildXorMappedAttr ⟨IpAddress.v4 0xCB007105, 54321⟩ [] false).getD 6 0)
        ((buildXorMappedAttr ⟨IpAddress.v4 0xCB007105, 54321⟩ [] false).getD 7 0))
      (MAGIC_COOKIE >>> 16) = 54321 ∧
     Nat.xor (decode32 ((buildXorMappedAttr ⟨IpAddress.v4 0xCB007105, 54321⟩ [] false).getD 8 0)
        ((buildXorMappedAttr ⟨IpAddress.v4 0xCB007105, 54321⟩ [] false).getD 9 0)
        ((buildXorMappedAttr ⟨IpAddress.v4 0xCB007105, 54321⟩ [] false).getD 10 0)
        ((buildXorMappedAttr ⟨IpAddress.v4 0xCB007105, 54321⟩ [] false).getD 11 0))
      MAGIC_COOKIE = 0xCB007105) :=
  ⟨by decide, by decide, c4_ipv4_xor_roundtrip 0xCB007105 54321 [] false (by decide) (by decide)⟩

theorem cookieHostBytes_length (le : Bool) : (cookieHostBytes le).length = 4 := by
  cases le <;> rfl

/-- Claim C1 (code evaluated at the failing input): on a little-endian host,
for the all-zero IPv6 address and the all-zero transaction id, the encoder
produces an xaddress whose first four bytes are 0x42 0xA4 0x12 0x21 (the
magic cookie in host memory order) rather than 0x21 0x12 0xA4 0x42, and
re-XORing the first produced xaddress byte with the mask byte the claim
prescribes (0x21) does not recover the original address byte. -/
theorem c1_ipv6_mask_host_order :
    buildXorMappedAttr ⟨IpAddress.v6 (List.replicate 16 0), 0⟩
        [0, 0, 0, 0, 0, 0, 0, 0, 0, 0, 0, 0] true =
      [0x00, 0x20, 0x00, 0x14, 0x00, 0x02, 0x21, 0x12,
       0x42, 0xA4, 0x12, 0x21, 0, 0, 0, 0, 0, 0, 0, 0, 0, 0, 0, 0] ∧
    Nat.xor ((buildXorMappedAttr ⟨IpAddress.v6 (List.replicate 16 0), 0⟩
        [0, 0, 0, 0, 0, 0, 0, 0, 0, 0, 0, 0] true).getD 8 0) 0x21 ≠
      (List.replicate 16 (0 : Nat)).getD 0 0 := by
  decide

/-- Claim C2 (code evaluated at the failing input): with base delay 0 and a
drawn jitter offset of -1, the computed delay is not clamped to 0 but wraps
in uint32_t arithmetic to 4294967295 milliseconds. -/
theorem c2_delay_wraps :
    scheduledDelay 0 (-1) = 4294967295 ∧ scheduledDelay 0 (-1) ≠ 0 := by
  decide

/-- Claim C3 counterexample: for a valid Binding Request from a peer whose
address is neither IPv4 nor IPv6, the server does produce a response message
(a header-only payload), contradicting the claimed silent no-op. -/
theorem c3_counterexample :
    handlePacket validBuf20 ⟨IpAddress.unsupported, 1234⟩ true ≠ none := by
  decide

/-- Claim C3 as amended: for every valid Binding Request whose source address
is neither IPv4 nor IPv6, the encoder contributes no attribute bytes, but the
server still builds and schedules a 20-byte header-only response (type
0x0101, length field 0, magic cookie, echoed transaction id). -/
theorem c3_unsupported_family (buf : List Nat) (port : Nat) (le : Bool)
    (hlen : 20 ≤ buf.length) (htype : msgTypeOf buf = BINDING_REQUEST)
    (hcookie : cookieOf buf = MAGIC_COOKIE) :
    buildXorMappedAttr ⟨IpAddress.unsupported, port⟩ (transIdOf buf) le = [] ∧
    handlePacket buf ⟨IpAddress.unsupported, port⟩ le =
      some ([0x01, 0x01, 0x00, 0x00, 0x21, 0x12, 0xA4, 0x42] ++ transIdOf buf) := by
  refine ⟨rfl, ?_⟩
  rw [handlePacket_valid buf ⟨IpAddress.unsupported, port⟩ le hlen htype hcookie]
  simp [buildXorMappedAttr, u16be, u32be, BINDING_SUCCESS_RESP, MAGIC_COOKIE]

/-- Witness for c3_unsupported_family at a concrete valid request. -/
theorem c3_unsupported_family_witness :
    20 ≤ validBuf20.length ∧ msgTypeOf validBuf20 = BINDING_REQUEST ∧
    cookieOf validBuf20 = MAGIC_COOKIE ∧
    (buildXorMappedAttr ⟨IpAddress.unsupported, 99⟩ (transIdOf validBuf20) true = [] ∧
     handlePacket validBuf20 ⟨IpAddress.unsupported, 99⟩ true =
       some ([0x01, 0x01, 0x00, 0x00, 0x21, 0x12, 0xA4, 0x42] ++ transIdOf validBuf20)) :=
  ⟨by decide, by decide, by decide,
   c3_unsupported_family validBuf20 99 true (by decide) (by decide) (by decide)⟩

/-- Claim C5: the server schedules an outbound response exactly when the
datagram has at least 20 bytes, its first two bytes decode (big-endian) to
0x0001 and its bytes 4 to 7 decode to the magic cookie; moreover a 20-byte
buffer meeting these conditions is accepted. -/
theorem c5_validator_accepts_iff (le : Bool) :
    (∀ (buf : List Nat) (remote : Endpoint),
        ((handlePacket buf remote le).isSome = true ↔
          (20 ≤ buf.length ∧ msgTypeOf buf = BINDING_REQUEST ∧
            cookieOf buf = MAGIC_COOKIE))) ∧
    (handlePacket validBuf20 ⟨IpAddress.v4 5, 7⟩ le).isSome = true := by
  constructor
  · intro buf remote
    unfold handlePacket
    by_cases hl : buf.length < 20
    · rw [if_pos hl]
      simp only [Option.isSome_none, Bool.false_eq_true, false_iff]
      intro hc
      exact absurd hc.1 (by omega)
    · rw [if_neg hl]
      by_cases hm : msgTypeOf buf ≠ BINDING_REQUEST ∨ cookieOf buf ≠ MAGIC_COOKIE
      · rw [if_pos hm]
        simp only [Option.isSome_none, Bool.false_eq_true, false_iff]
        rcases hm with h | h <;> intro hc <;> exact h (by tauto)
      · rw [if_neg hm]
        push_neg at hm
        simp only [Option.isSome_some, true_iff]
        exact ⟨by omega, hm.1, hm.2⟩
  · cases le <;> decide

/-- Claim C6: for every valid Binding Request, the scheduled response starts
with type 0x0101, its length field (bytes 2 and 3, big-endian) equals the
byte length of the attribute block, bytes 4 to 7 are the magic cookie in
network order, bytes 8 to 19 are the request's transaction id copied
verbatim, and the attribute bytes follow immediately. -/
theorem c6_response_structure (buf : List Nat) (remote : Endpoint) (le : Bool) (resp : List Nat)
    (hlen : 20 ≤ buf.length) (htype : msgTypeOf buf = BINDING_REQUEST)
    (hcookie : cookieOf buf = MAGIC_COOKIE)
    (hresp : handlePacket buf remote le = some resp) :
    resp.take 2 = [0x01, 0x01] ∧
    decode16 (resp.getD 2 0) (resp.getD 3 0) =
      (buildXorMappedAttr remote (transIdOf buf) le).length ∧
    (resp.drop 4).take 4 = [0x21, 0x12, 0xA4, 0x42] ∧
    (resp.drop 8).take 12 = transIdOf buf ∧
    resp.drop 20 = buildXorMappedAttr remote (transIdOf buf) le ∧
    resp.length = 20 + (buildXorMappedAttr remote (transIdOf buf) le).length := by
  rw [handlePacket_valid buf remote le hlen htype hcookie] at hresp
  injection hresp with hr
  subst hr
  have hn : (buildXorMappedAttr remote (transIdOf buf) le).length < 65536 :=
    lt_of_le_of_lt (buildXorMappedAttr_length_le remote _ le (transIdOf_length buf))
      (by norm_num)
  refine ⟨rfl, ?_, rfl, rfl, rfl, ?_⟩
  · show decode16 ((buildXorMappedAttr remote (transIdOf buf) le).length / 256 % 256)
        ((buildXorMappedAttr remote (transIdOf buf) le).length % 256) =
      (buildXorMappedAttr remote (transIdOf buf) le).length
    rw [decode16_u16be, Nat.mod_eq_of_lt hn]
  · simp [u16be, u32be, transIdOf, BINDING_SUCCESS_RESP, MAGIC_COOKIE]
    omega

/-- Witness for c6_response_structure at the concrete request of the spec's
scenario, from peer 203.0.113.5:54321. -/
theorem c6_response_structure_witness :
    20 ≤ validBuf20.length ∧ msgTypeOf validBuf20 = BINDING_REQUEST ∧
    cookieOf validBuf20 = MAGIC_COOKIE ∧
    handlePacket validBuf20 ⟨IpAddress.v4 0xCB007105, 54321⟩ false =
      some [0x01, 0x01, 0x00, 0x0C, 0x21, 0x12, 0xA4, 0x42,
            0x00, 0x01, 0x02, 0x03, 0x04, 0x05, 0x06, 0x07, 0x08, 0x09, 0x0A, 0x0B,
            0x00, 0x20, 0x00, 0x08, 0x00, 0x01, 0xF5, 0x23, 0xEA, 0x12, 0xD5, 0x47] ∧
    (([0x01, 0x01, 0x00, 0x0C, 0x21, 0x12, 0xA4, 0x42,
            0x00, 0x01, 0x02, 0x03, 0x04, 0x05, 0x06, 0x07, 0x08, 0x09, 0x0A, 0x0B,
            0x00, 0x20, 0x00, 0x08, 0x00, 0x01, 0xF5, 0x23, 0xEA, 0x12, 0xD5, 0x47] :
        List Nat).take 2 = [0x01, 0x01] ∧
     decode16 (([0x01, 0x01, 0x00, 0x0C, 0x21, 0x12, 0xA4, 0x42,
            0x00, 0x01, 0x02, 0x03, 0x04, 0x05, 0x06, 0x07, 0x08, 0x09, 0x0A, 0x0B,
            0x00, 0x20, 0x00, 0x08, 0x00, 0x01, 0xF5, 0x23, 0xEA, 0x12, 0xD5, 0x47] :
        List Nat).getD 2 0)
        (([0x01, 0x01, 0x00, 0x0C, 0x21, 0x12, 0xA4, 0x42,
            0x00, 0x01, 0x02, 0x03, 0x04, 0x05, 0x06, 0x07, 0x08, 0x09, 0x0A, 0x0B,
            0x00, 0x20, 0x00, 0x08, 0x00, 0x01, 0xF5, 0x23, 0xEA, 0x12, 0xD5, 0x47] :
        List Nat).getD 3 0) =
       (buildXorMappedAttr ⟨IpAddress.v4 0xCB007105, 54321⟩ (transIdOf validBuf20) false).length ∧
     (([0x01, 0x01, 0x00, 0x0C, 0x21, 0x12, 0xA4, 0x42,
            0x00, 0x01, 0x02, 0x03, 0x04, 0x05, 0x06, 0x07, 0x08, 0x09, 0x0A, 0x0B,
            0x00, 0x20, 0x00, 0x08, 0x00, 0x01, 0xF5, 0x23, 0xEA, 0x12, 0xD5, 0x47] :
        List Nat).drop 4).take 4 = [0x21, 0x12, 0xA4, 0x42] ∧
     (([0x01, 0x01, 0x00, 0x0C, 0x21, 0x12, 0xA4, 0x42,
            0x00, 0x01, 0x02, 0x03, 0x04, 0x05, 0x06, 0x07, 0x08, 0x09, 0x0A, 0x0B,
            0x00, 0x20, 0x00, 0x08, 0x00, 0x01, 0xF5, 0x23, 0xEA, 0x12, 0xD5, 0x47] :
        List Nat).drop 8).take 12 = transIdOf validBuf20 ∧
     ([0x01, 0x01, 0x00, 0x0C, 0x21, 0x12, 0xA4, 0x42,
            0x00, 0x01, 0x02, 0x03, 0x04, 0x05, 0x06, 0x07, 0x08, 0x09, 0x0A, 0x0B,
            0x00, 0x20, 0x00, 0x08, 0x00, 0x01, 0xF5, 0x23, 0xEA, 0x12, 0xD5, 0x47] :
        List Nat).drop 20 =
       buildXorMappedAttr ⟨IpAddress.v4 0xCB007105, 54321⟩ (transIdOf validBuf20) false ∧
     ([0x01, 0x01, 0x00, 0x0C, 0x21, 0x12, 0xA4, 0x42,
            0x00, 0x01, 0x02, 0x03, 0x04, 0x05, 0x06, 0x07, 0x08, 0x09, 0x0A, 0x0B,
            0x00, 0x20, 0x00, 0x08, 0x00, 0x01, 0xF5, 0x23, 0xEA, 0x12, 0xD5, 0x47] :
        List Nat).length =
       20 + (buildXorMappedAttr ⟨IpAddress.v4 0xCB007105, 54321⟩ (transIdOf validBuf20) false).length) :=
  ⟨by decide, by decide, by decide, by decide,
   c6_response_structure validBuf20 ⟨IpAddress.v4 0xCB007105, 54321⟩ false
     [0x01, 0x01, 0x00, 0x0C, 0x21, 0x12, 0xA4, 0x42,
      0x00, 0x01, 0x02, 0x03, 0x04, 0x05, 0x06, 0x07, 0x08, 0x09, 0x0A, 0x0B,
      0x00, 0x20, 0x00, 0x08, 0x00, 0x01, 0xF5, 0x23, 0xEA, 0x12, 0xD5, 0x47]
     (by decide) (by decide) (by decide) (by decide)⟩

/-- Claim C7 counterexample: for the spec's concrete scenario (valid 20-byte
request, peer 203.0.113.5:54321), the server does not produce the message the
claim predicts, whose header length field is 0x0008. -/
theorem c7_counterexample :
    handlePacket validBuf20 ⟨IpAddress.v4 0xCB007105, 54321⟩ true ≠
      some [0x01, 0x01, 0x00, 0x08, 0x21, 0x12, 0xA4, 0x42,
            0x00, 0x01, 0x02, 0x03, 0x04, 0x05, 0x06, 0x07,
            0x08, 0x09, 0x0A, 0x0B,
            0x00, 0x20, 0x00, 0x08, 0x00, 0x01, 0xF5, 0x23, 0xEA, 0x12, 0xD5, 0x47] := by
  decide

/-- Claim C7 as amended: for the spec's concrete scenario the server produces
exactly the 32-byte message whose header length field is 0x000C (the 12-byte
attribute block), followed by the IPv4 XOR-Mapped-Address attribute with
xport = 54321 XOR 0x2112 = 0xF523 and xaddress = 203.0.113.5 XOR the magic
cookie = 0xEA12D547, and with base delay 0 and jitter 0 the scheduled delay
is 0 (sent immediately). -/
theorem c7_concrete_scenario :
    handlePacket validBuf20 ⟨IpAddress.v4 0xCB007105, 54321⟩ true =
      some [0x01, 0x01, 0x00, 0x0C, 0x21, 0x12, 0xA4, 0x42,
            0x00, 0x01, 0x02, 0x03, 0x04, 0x05, 0x06, 0x07,
            0x08, 0x09, 0x0A, 0x0B,
            0x00, 0x20, 0x00, 0x08, 0x00, 0x01, 0xF5, 0x23, 0xEA, 0x12, 0xD5, 0x47] ∧
    scheduledDelay 0 0 = 0 := by
  decide

/-- Claim C8: the serialized attribute is exactly 12 bytes for an IPv4 peer
with fields {type=0x0020, length=8, reserved=0x00, family=0x01, xport,
xaddress}, and exactly 24 bytes for an IPv6 peer with fields {type=0x0020,
length=20, reserved=0x00, family=0x02, xport, 16-byte xaddress}; the
multi-byte numeric fields (type, length, xport, and the IPv4 xaddress)
decode big-endian to their intended values. -/
theorem c8_attr_wire_layout (a port : Nat) (b16 tid : List Nat) (le : Bool)
    (ha : a < 4294967296) (hb16 : b16.length = 16) (htid : tid.length = 12) :
    (buildXorMappedAttr ⟨IpAddress.v4 a, port⟩ tid le).length = 12 ∧
    (buildXorMappedAttr ⟨IpAddress.v4 a, port⟩ tid le).take 6 =
      [0x00, 0x20, 0x00, 0x08, 0x00, 0x01] ∧
    decode16 ((buildXorMappedAttr ⟨IpAddress.v4 a, port⟩ tid le).getD 6 0)
        ((buildXorMappedAttr ⟨IpAddress.v4 a, port⟩ tid le).getD 7 0) =
      Nat.xor port (MAGIC_COOKIE >>> 16) % 65536 ∧
    decode32 ((buildXorMappedAttr ⟨IpAddress.v4 a, port⟩ tid le).getD 8 0)
        ((buildXorMappedAttr ⟨IpAddress.v4 a, port⟩ tid le).getD 9 0)
        ((buildXorMappedAttr ⟨IpAddress.v4 a, port⟩ tid le).getD 10 0)
        ((buildXorMappedAttr ⟨IpAddress.v4 a, port⟩ tid le).getD 11 0) =
      Nat.xor a MAGIC_COOKIE ∧
    (buildXorMappedAttr ⟨IpAddress.v6 b16, port⟩ tid le).length = 24 ∧
    (buildXorMappedAttr ⟨IpAddress.v6 b16, port⟩ tid le).take 6 =
      [0x00, 0x20, 0x00, 0x14, 0x00, 0x02] ∧
    decode16 ((buildXorMappedAttr ⟨IpAddress.v6 b16, port⟩ tid le).getD 6 0)
        ((buildXorMappedAttr ⟨IpAddress.v6 b16, port⟩ tid le).getD 7 0) =
      Nat.xor port (MAGIC_COOKIE >>> 16) % 65536 ∧
    (buildXorMappedAttr ⟨IpAddress.v6 b16, port⟩ tid le).drop 8 =
      List.zipWith Nat.xor b16 (cookieHostBytes le ++ tid) := by
  have hb : buildXorMappedAttr ⟨IpAddress.v4 a, port⟩ tid le =
      [0, 32, 0, 8, 0, 1,
       (Nat.xor port (MAGIC_COOKIE >>> 16)) % 65536 / 256 % 256,
       (Nat.xor port (MAGIC_COOKIE >>> 16)) % 65536 % 256,
       Nat.xor a MAGIC_COOKIE / 16777216 % 256,
       Nat.xor a MAGIC_COOKIE / 65536 % 256,
       Nat.xor a MAGIC_COOKIE / 256 % 256,
       Nat.xor a MAGIC_COOKIE % 256] := by
    simp [buildXorMappedAttr, u16be, u32be, XOR_MAPPED_ADDRESS]
  have hb6 : buildXorMappedAttr ⟨IpAddress.v6 b16, port⟩ tid le =
      [0, 32, 0, 20, 0, 2,
       (Nat.xor port (MAGIC_COOKIE >>> 16)) % 65536 / 256 % 256,
       (Nat.xor port (MAGIC_COOKIE >>> 16)) % 65536 % 256] ++
        List.zipWith Nat.xor b16 (cookieHostBytes le ++ tid) := by
    simp [buildXorMappedAttr, u16be, XOR_MAPPED_ADDRESS]
  have hip : Nat.xor a MAGIC_COOKIE < 4294967296 :=
    xor_lt_4294967296 ha (by decide)
  refine ⟨?_, ?_, ?_, ?_, ?_, ?_, ?_, ?_⟩
  · rw [hb]
    rfl
  · rw [hb]
    rfl
  · rw [hb]
    show decode16 ((Nat.xor port (MAGIC_COOKIE >>> 16)) % 65536 / 256 % 256)
        ((Nat.xor port (MAGIC_COOKIE >>> 16)) % 65536 % 256) =
      Nat.xor port (MAGIC_COOKIE >>> 16) % 65536
    rw [decode16_u16be]
    omega
  · rw [hb]
    show decode32 (Nat.xor a MAGIC_COOKIE / 16777216 % 256)
        (Nat.xor a MAGIC_COOKIE / 65536 % 256) (Nat.xor a MAGIC_COOKIE / 256 % 256)
        (Nat.xor a MAGIC_COOKIE % 256) = Nat.xor a MAGIC_COOKIE
    rw [decode32_u32be, Nat.mod_eq_of_lt hip]
  · rw [hb6]
    simp [List.length_zipWith, cookieHostBytes_length, hb16, htid]
  · rw [hb6]
    rfl
  · rw [hb6]
    show decode16 ((Nat.xor port (MAGIC_COOKIE >>> 16)) % 65536 / 256 % 256)
        ((Nat.xor port (MAGIC_COOKIE >>> 16)) % 65536 % 256) =
      Nat.xor port (MAGIC_COOKIE >>> 16) % 65536
    rw [decode16_u16be]
    omega
  · rw [hb6]
    rfl

/-- Witness for c8_attr_wire_layout at a concrete IPv4 peer and a concrete
IPv6 peer sharing port 54321 and transaction id 0x00..0x0B. -/
theorem c8_attr_wire_layout_witness :
    (0xCB007105 : Nat) < 4294967296 ∧
    ([0, 1, 2, 3, 4, 5, 6, 7, 8, 9, 10, 11, 12, 13, 14, 15] : List Nat).length = 16 ∧
    ([0, 1, 2, 3, 4, 5, 6, 7, 8, 9, 10, 11] : List Nat).length = 12 ∧
    ((buildXorMappedAttr ⟨IpAddress.v4 0xCB007105, 54321⟩ [0, 1, 2, 3, 4, 5, 6, 7, 8, 9, 10, 11] true).length = 12 ∧
     (buildXorMappedAttr ⟨IpAddress.v4 0xCB007105, 54321⟩ [0, 1, 2, 3, 4, 5, 6, 7, 8, 9, 10, 11] true).take 6 =
       [0x00, 0x20, 0x00, 0x08, 0x00, 0x01] ∧
     decode16 ((buildXorMappedAttr ⟨IpAddress.v4 0xCB007105, 54321⟩ [0, 1, 2, 3, 4, 5, 6, 7, 8, 9, 10, 11] true).getD 6 0)
         ((buildXorMappedAttr ⟨IpAddress.v4 0xCB007105, 54321⟩ [0, 1, 2, 3, 4, 5, 6, 7, 8, 9, 10, 11] true).getD 7 0) =
       Nat.xor 54321 (MAGIC_COOKIE >>> 16) % 65536 ∧
     decode32 ((buildXorMappedAttr ⟨IpAddress.v4 0xCB007105, 54321⟩ [0, 1, 2, 3, 4, 5, 6, 7, 8, 9, 10, 11] true).getD 8 0)
         ((buildXorMappedAttr ⟨IpAddress.v4 0xCB007105, 54321⟩ [0, 1, 2, 3, 4, 5, 6, 7, 8, 9, 10, 11] true).getD 9 0)
         ((buildXorMappedAttr ⟨IpAddress.v4 0xCB007105, 54321⟩ [0, 1, 2, 3, 4, 5, 6, 7, 8, 9, 10, 11] true).getD 10 0)
         ((buildXorMappedAttr ⟨IpAddress.v4 0xCB007105, 54321⟩ [0, 1, 2, 3, 4, 5, 6, 7, 8, 9, 10, 11] true).getD 11 0) =
       Nat.xor 0xCB007105 MAGIC_COOKIE ∧
     (buildXorMappedAttr ⟨IpAddress.v6 [0, 1, 2, 3, 4, 5, 6, 7, 8, 9, 10, 11, 12, 13, 14, 15], 54321⟩ [0, 1, 2, 3, 4, 5, 6, 7, 8, 9, 10, 11] true).length = 24 ∧
     (buildXorMappedAttr ⟨IpAddress.v6 [0, 1, 2, 3, 4, 5, 6, 7, 8, 9, 10, 11, 12, 13, 14, 15], 54321⟩ [0, 1, 2, 3, 4, 5, 6, 7, 8, 9, 10, 11] true).take 6 =
       [0x00, 0x20, 0x00, 0x14, 0x00, 0x02] ∧
     decode16 ((buildXorMappedAttr ⟨IpAddress.v6 [0, 1, 2, 3, 4, 5, 6, 7, 8, 9, 10, 11, 12, 13, 14, 15], 54321⟩ [0, 1, 2, 3, 4, 5, 6, 7, 8, 9, 10, 11] true).getD 6 0)
         ((buildXorMappedAttr ⟨IpAddress.v6 [0, 1, 2, 3, 4, 5, 6, 7, 8, 9, 10, 11, 12, 13, 14, 15], 54321⟩ [0, 1, 2, 3, 4, 5, 6, 7, 8, 9, 10, 11] true).getD 7 0) =
       Nat.xor 54321 (MAGIC_COOKIE >>> 16) % 65536 ∧
     (buildXorMappedAttr ⟨IpAddress.v6 [0, 1, 2, 3, 4, 5, 6, 7, 8, 9, 10, 11, 12, 13, 14, 15], 54321⟩ [0, 1, 2, 3, 4, 5, 6, 7, 8, 9, 10, 11] true).drop 8 =
       List.zipWith Nat.xor [0, 1, 2, 3, 4, 5, 6, 7, 8, 9, 10, 11, 12, 13, 14, 15]
         (cookieHostBytes true ++ [0, 1, 2, 3, 4, 5, 6, 7, 8, 9, 10, 11])) :=
  ⟨by decide, by decide, by decide,
   c8_attr_wire_layout 0xCB007105 54321 [0, 1, 2, 3, 4, 5, 6, 7, 8, 9, 10, 11, 12, 13, 14, 15]
     [0, 1, 2, 3, 4, 5, 6, 7, 8, 9, 10, 11] true (by decide) (by decide) (by decide)⟩

/-- Claim C9: the response payload is a function only of the request's type,
cookie and transaction-id bytes (offsets 0, 1 and 4 to 19) and the source
endpoint: two accepted buffers agreeing on those bytes yield identical
payloads regardless of the length field (bytes 2 and 3) or any bytes beyond
offset 19. -/
theorem c9_payload_reads_only_type_cookie_tid (b1 b2 : List Nat) (remote : Endpoint)
    (le : Bool) (h1 : 20 ≤ b1.length) (h2 : 20 ≤ b2.length)
    (hsame : ∀ i, i < 20 → i ≠ 2 → i ≠ 3 → b1.getD i 0 = b2.getD i 0) :
    handlePacket b1 remote le = handlePacket b2 remote le := by
  have ht : msgTypeOf b1 = msgTypeOf b2 := by
    unfold msgTypeOf
    rw [hsame 0 (by omega) (by omega) (by omega), hsame 1 (by omega) (by omega) (by omega)]
  have hc : cookieOf b1 = cookieOf b2 := by
    unfold cookieOf
    rw [hsame 4 (by omega) (by omega) (by omega), hsame 5 (by omega) (by omega) (by omega),
      hsame 6 (by omega) (by omega) (by omega), hsame 7 (by omega) (by omega) (by omega)]
  have htid : transIdOf b1 = transIdOf b2 := by
    unfold transIdOf
    rw [hsame 8 (by omega) (by omega) (by omega), hsame 9 (by omega) (by omega) (by omega),
      hsame 10 (by omega) (by omega) (by omega), hsame 11 (by omega) (by omega) (by omega),
      hsame 12 (by omega) (by omega) (by omega), hsame 13 (by omega) (by omega) (by omega),
      hsame 14 (by omega) (by omega) (by omega), hsame 15 (by omega) (by omega) (by omega),
      hsame 16 (by omega) (by omega) (by omega), hsame 17 (by omega) (by omega) (by omega),
      hsame 18 (by omega) (by omega) (by omega), hsame 19 (by omega) (by omega) (by omega)]
  unfold handlePacket
  rw [if_neg (show ¬b1.length < 20 by omega), if_neg (show ¬b2.length < 20 by omega),
    ht, hc, htid]

/-- Witness for c9_payload_reads_only_type_cookie_tid: validBuf20 and altBuf
differ in the length field and in trailing bytes yet yield the same payload. -/
theorem c9_payload_reads_only_type_cookie_tid_witness :
    20 ≤ validBuf20.length ∧ 20 ≤ altBuf.length ∧
    (∀ i, i < 20 → i ≠ 2 → i ≠ 3 → validBuf20.getD i 0 = altBuf.getD i 0) ∧
    handlePacket validBuf20 ⟨IpAddress.v4 9, 9⟩ false =
      handlePacket altBuf ⟨IpAddress.v4 9, 9⟩ false :=
  ⟨by decide, by decide, by decide,
   c9_payload_reads_only_type_cookie_tid validBuf20 altBuf ⟨IpAddress.v4 9, 9⟩ false
     (by decide) (by decide) (by decide)⟩

/-- Claim C10: after every completed receive, whether the datagram was
accepted, rejected, or the receive reported an error, the handler installed
by startReceive always performs the rearm action (a new asynchronous
receive), so one datagram never stops processing of subsequent ones. -/
theorem c10_always_rearms (ec : Bool) (buf : List Nat) (remote : Endpoint) (le : Bool) :
    ServerAction.rearm ∈ receiveHandler ec buf remote le := by
  unfold receiveHandler
  exact List.mem_append_right _ (by simp)
